import Mathlib

/-!
Verification of the astria-mcp client-side orchestration layer.

The definitions below are a shallow embedding of the TypeScript source:

* src/errors/handlers.ts  — createErrorFromResponse (error classifier)
* src/errors/codes.ts     — AstriaErrorCode
* src/errors/errors.ts    — AstriaError
* src/tools/generate-image.ts — validateLoraTune and the LoRA
  validation / prompt-composition loop of handleGenerateImage
* src/api/client.ts       — generateImage and pollForPromptCompletion

JavaScript runtime values that flow through the classifier are modelled by
an explicit JsValue type, and JavaScript truthiness, property access and
string conversion are modelled by executable functions so that every
theorem can be evaluated on concrete inputs.
-/

/-- Model of a JSON-like JavaScript runtime value (the shapes that reach
the error classifier: strings, numbers, booleans, null, arrays, objects).
An object is an association list of fields in insertion order. -/
inductive JsValue where
  | str (s : String)
  | num (n : Int)
  | bool (b : Bool)
  | null
  | arr (elems : List JsValue)
  | obj (fields : List (String × JsValue))

/-- JavaScript truthiness of a value: empty string, 0, false and null are
falsy; every array and object (including empty ones) is truthy. -/
def jsTruthy : JsValue → Bool
  | .str s => s != ""
  | .num n => n != 0
  | .bool b => b
  | .null => false
  | .arr _ => true
  | .obj _ => true

/-- JavaScript `typeof v === "object"` for a non-null value reaching the
classifier data branch: true exactly for arrays and objects. (null never
reaches that branch because it is falsy.) -/
def typeofObject : JsValue → Bool
  | .arr _ => true
  | .obj _ => true
  | _ => false

/-- Property access `v[k]`: association-list lookup on objects, decimal
index lookup on arrays, undefined (none) on primitives. -/
def getProp (v : JsValue) (k : String) : Option JsValue :=
  match v with
  | .obj fields => (fields.find? (fun p => p.1 == k)).map (·.2)
  | .arr elems => (elems.enum.find? (fun p => toString p.1 == k)).map (·.2)
  | _ => none

/-- Property access followed by a truthiness test, as in
`if (data.error) ...`: yields the value only when present and truthy. -/
def getPropTruthy (v : JsValue) (k : String) : Option JsValue :=
  match getProp v k with
  | some w => if jsTruthy w then some w else none
  | none => none

/-- Model of `Object.entries(v)`: the fields of an object in insertion order, the
indexed elements of an array, and nothing for primitives. -/
def jsEntries : JsValue → List (String × JsValue)
  | .obj fields => fields
  | .arr elems => elems.enum.map (fun p => (toString p.1, p.2))
  | _ => []

mutual

/-- JavaScript `String(v)` / template-literal conversion: strings verbatim,
numbers in decimal, `null` for null, `[object Object]` for plain objects,
and comma-joined element conversions for arrays. -/
def jsToString : JsValue → String
  | .str s => s
  | .num n => toString n
  | .bool b => cond b "true" "false"
  | .null => "null"
  | .obj _ => "[object Object]"
  | .arr elems => jsJoin "," elems

/-- Model of `Array.prototype.join(sep)`: elements converted with String, except
null (and undefined) which become the empty string. -/
def jsJoin (sep : String) : List JsValue → String
  | [] => ""
  | [v] => (match v with | .null => "" | w => jsToString w)
  | v :: rest =>
      (match v with | .null => "" | w => jsToString w) ++ sep ++ jsJoin sep rest

end

/-- The closed error-kind taxonomy of src/errors/codes.ts. -/
inductive AstriaErrorCode where
  | UNKNOWN_ERROR
  | NETWORK_ERROR
  | TIMEOUT_ERROR
  | AUTH_ERROR
  | API_ERROR
  | RATE_LIMIT_ERROR
  | RESOURCE_NOT_FOUND
  | VALIDATION_ERROR
  | SDK_ERROR
  | POLLING_TIMEOUT
deriving DecidableEq, Repr

/-- The AstriaError class of src/errors/errors.ts: message, code, opaque
details payload and optional HTTP status. -/
structure AstriaError where
  message : String
  code : AstriaErrorCode
  details : Option JsValue := none
  httpStatus : Option Nat := none

/-- Truthiness of `error.response?.status` (`if (httpStatus)`): a status
of 0 is falsy in JavaScript, an absent status is undefined. -/
def statusTruthy : Option Nat → Bool
  | some s => s != 0
  | none => false

/-- The status → kind table of createErrorFromResponse
(src/errors/handlers.ts lines 16-26). -/
def statusKind (s : Nat) : AstriaErrorCode :=
  if s = 401 ∨ s = 403 then .AUTH_ERROR
  else if s = 404 then .RESOURCE_NOT_FOUND
  else if s = 422 then .VALIDATION_ERROR
  else if s = 429 then .RATE_LIMIT_ERROR
  else .API_ERROR

/-- Kind selection for an axios failure (handlers.ts lines 15-31): a
truthy HTTP status is mapped through the status table, otherwise the
transport code strings ECONNABORTED / ERR_NETWORK select TIMEOUT / NETWORK,
otherwise the initial UNKNOWN_ERROR stands. -/
def axiosCode (st : Option Nat) (codeStr : Option String) : AstriaErrorCode :=
  if statusTruthy st then statusKind (st.getD 0)
  else if codeStr = some "ECONNABORTED" then .TIMEOUT_ERROR
  else if codeStr = some "ERR_NETWORK" then .NETWORK_ERROR
  else .UNKNOWN_ERROR

/-- The generic fallback text `API error (<status>)` (handlers.ts
lines 65 and 68). -/
def apiErrorText (st : Option Nat) : String :=
  "API error (" ++ (if statusTruthy st then toString (st.getD 0) else "unknown status") ++ ")"

/-- One element of a Rails-style `errors` array (handlers.ts lines 44-50):
an object with truthy `field` and `message` becomes `field: message`,
other non-null values are String()-converted, and a null element makes the
property access `e.field` throw (typeof null is object), modelled as
`.error ()`. -/
def errorsItem (e : JsValue) : Except Unit String :=
  match e with
  | .null => .error ()
  | v =>
    if typeofObject v then
      match getPropTruthy v "field", getPropTruthy v "message" with
      | some f, some m => .ok (jsToString f ++ ": " ++ jsToString m)
      | _, _ => .ok (jsToString v)
    else .ok (jsToString v)

/-- Sequential map of errorsItem over the `errors` array; the first throw
aborts, as the map callback does inside the try block. -/
def errorsMessages : List JsValue → Except Unit (List String)
  | [] => .ok []
  | e :: rest => do
    let m ← errorsItem e
    let ms ← errorsMessages rest
    return m :: ms

/-- The `errors` field when it is truthy and an array
(`data.errors && Array.isArray(data.errors)`, handlers.ts line 43). -/
def errorsArray (d : JsValue) : Option (List JsValue) :=
  match getProp d "errors" with
  | some (.arr es) => some es
  | _ => none

/-- The Object.entries fallback (handlers.ts lines 52-60): fields whose
value is an array contribute `field: v1, v2`, fields whose value is a
string contribute `field: value`, other fields are skipped. -/
def entryMessages (entries : List (String × JsValue)) : List String :=
  entries.filterMap fun p =>
    match p.2 with
    | .arr xs => some (p.1 ++ ": " ++ jsJoin ", " xs)
    | .str s => some (p.1 ++ ": " ++ s)
    | _ => none

/-- The body of the try block extracting a message from an object payload
(handlers.ts lines 38-69); `.error ()` models an exception escaping to the
catch. -/
def tryExtractObject (d : JsValue) (st : Option Nat) : Except Unit String :=
  match getPropTruthy d "error" with
  | some v => .ok (jsToString v)
  | none =>
    match getPropTruthy d "message" with
    | some v => .ok (jsToString v)
    | none =>
      match errorsArray d with
      | some es => do
        let ms ← errorsMessages es
        return String.intercalate ", " ms
      | none =>
        let ms := entryMessages (jsEntries d)
        .ok (if ms.isEmpty then apiErrorText st else String.intercalate "; " ms)

/-- The try/catch around object-payload extraction: an exception becomes
the fixed parse-failure message (handlers.ts lines 70-72). -/
def extractObjectMessage (d : JsValue) (st : Option Nat) : String :=
  match tryExtractObject d st with
  | .ok m => m
  | .error () => "Error parsing API response"

/-- Message selection for an axios failure (handlers.ts lines 33-78):
a truthy object payload goes through guarded extraction, a truthy
primitive payload is String()-converted, and a falsy or absent payload
falls back to `error.message || "Network error"`. -/
def extractMessage (st : Option Nat) (data : Option JsValue) (errMsg : String) : String :=
  match data with
  | some d =>
    if jsTruthy d then
      if typeofObject d then extractObjectMessage d st else jsToString d
    else if errMsg = "" then "Network error" else errMsg
  | none => if errMsg = "" then "Network error" else errMsg

/-- The details payload: `error.response.data`, recorded only when the
data is present and truthy (handlers.ts lines 33-34). -/
def axiosDetails (data : Option JsValue) : Option JsValue :=
  match data with
  | some d => if jsTruthy d then some d else none
  | none => none

/-- The AstriaError built for an axios failure with optional response
status, optional response data, optional transport code string, and the
error message string. -/
def mkAxiosError (st : Option Nat) (data : Option JsValue) (codeStr : Option String)
    (errMsg : String) : AstriaError :=
  { message := "Astria SDK: " ++ extractMessage st data errMsg
    code := axiosCode st codeStr
    details := axiosDetails data
    httpStatus := st }

/-- The possible raw inputs to createErrorFromResponse: an axios transport
failure, an already-classified AstriaError, the JavaScript null (or
undefined) value, or any other thrown value. -/
inductive RawInput where
  | axiosErr (st : Option Nat) (data : Option JsValue) (codeStr : Option String) (errMsg : String)
  | astriaErr (e : AstriaError)
  | jsNull
  | otherVal (v : JsValue)

/-- Result of running createErrorFromResponse: a returned AstriaError, or
an exception escaping the function itself. -/
inductive ClassifyResult where
  | ok (e : AstriaError)
  | thrown

/-- createErrorFromResponse (src/errors/handlers.ts lines 6-93). For a
null/undefined input the final branch evaluates `error.message`, which
throws a TypeError; for any other non-axios, non-AstriaError value the
result is an SDK_ERROR wrapping `error.message || "Unknown error"` with
the value itself as details. -/
def createErrorFromResponse : RawInput → ClassifyResult
  | .axiosErr st data codeStr errMsg => .ok (mkAxiosError st data codeStr errMsg)
  | .astriaErr e => .ok e
  | .jsNull => .thrown
  | .otherVal v =>
    let m :=
      match getPropTruthy v "message" with
      | some mv => jsToString mv
      | none => "Unknown error"
    .ok { message := "Astria SDK: " ++ m, code := .SDK_ERROR, details := some v }

/-- The code of a classification result, when one was returned. -/
def resultCode : ClassifyResult → Option AstriaErrorCode
  | .ok e => some e.code
  | .thrown => none

/-- TuneRecord metadata as used by the validator and composer
(src/api/types.ts, TuneInfo): nullable string fields are Options. Only the
fields read by the embedded code are carried. -/
structure TuneInfo where
  id : Nat
  title : String
  name : String
  token : Option String := none
  trained_at : Option String := none
  model_type : Option String := none
deriving DecidableEq, Repr

/-- Truthiness of a nullable string field (`!tuneInfo.trained_at`,
`tuneInfo.token && ...`): absent or empty is falsy. -/
def optStrTruthy : Option String → Bool
  | some s => s != ""
  | none => false

/-- A thrown JavaScript error as seen by a catch block: either an
AstriaError instance or some other error carrying only a message. -/
inductive JsError where
  | astria (e : AstriaError)
  | plain (msg : String)

/-- The `(error as Error).message` of a thrown error. -/
def jsErrorMessage : JsError → String
  | .astria e => e.message
  | .plain m => m

/-- Message of the RESOURCE_NOT_FOUND throw of validateLoraTune
(generate-image.ts lines 47-50). -/
def notFoundMessage (tuneId : Nat) : String :=
  "LoRA tune with ID " ++ toString tuneId ++
    " not found. Please check that the LoRA ID is correct and that you have access to it."

/-- Message of the not-yet-trained VALIDATION_ERROR throw
(generate-image.ts lines 54-57). -/
def notTrainedMessage (tuneId : Nat) : String :=
  "LoRA tune with ID " ++ toString tuneId ++
    " exists but is not trained yet. Please wait for training to complete before using this LoRA."

/-- Message of the wrong-model-type VALIDATION_ERROR throw
(generate-image.ts lines 62-65); `tuneInfo.model_type || 'unknown'`. -/
def notLoraMessage (tuneId : Nat) (modelType : Option String) : String :=
  "Tune with ID " ++ toString tuneId ++ " is not a LoRA (type: " ++
    (match modelType with
     | some m => if m != "" then m else "unknown"
     | none => "unknown") ++
    "). Only LoRA type tunes can be used with this feature."

/-- Message of the outer-catch API_ERROR wrap (generate-image.ts
lines 73-76). -/
def wrapFailMessage (tuneId : Nat) (inner : String) : String :=
  "Failed to validate LoRA tune with ID " ++ toString tuneId ++ ": " ++ inner ++
    ". This may be due to API access issues or network problems."

/-- validateLoraTune (src/tools/generate-image.ts lines 40-78). The
outcome of the retrieveTune fetch is passed in explicitly: a thrown error,
or a resolved value that may be missing. The outer catch rethrows an
AstriaError unchanged and wraps anything else as API_ERROR. -/
def validateLoraTune (tuneId : Nat) (fetch : Except JsError (Option TuneInfo)) :
    Except JsError TuneInfo :=
  let body : Except JsError TuneInfo :=
    match fetch with
    | .error e => .error e
    | .ok none =>
      .error (.astria { message := notFoundMessage tuneId, code := .RESOURCE_NOT_FOUND })
    | .ok (some t) =>
      if !optStrTruthy t.trained_at then
        .error (.astria { message := notTrainedMessage tuneId, code := .VALIDATION_ERROR })
      else if t.model_type ≠ some "lora" then
        .error (.astria { message := notLoraMessage tuneId t.model_type, code := .VALIDATION_ERROR })
      else .ok t
  match body with
  | .ok t => .ok t
  | .error (.astria a) => .error (.astria a)
  | .error (.plain m) =>
    .error (.astria { message := wrapFailMessage tuneId m, code := .API_ERROR })

/-- A caller-supplied LoRA reference: tune id and weight. The weight is a
JavaScript number, modelled as an exact rational. -/
structure LoraRef where
  tune_id : Nat
  weight : ℚ
deriving DecidableEq, Repr

/-- Decimal digits of a proper fraction num/den (0 ≤ num < den), with
fuel; stops when the remainder is zero. -/
def fracDigits (num : Int) (den : Int) : Nat → String
  | 0 => ""
  | fuel + 1 =>
    if num = 0 then ""
    else
      let n10 := num * 10
      toString (n10 / den) ++ fracDigits (n10 % den) den fuel

/-- JavaScript number-to-string conversion for the nonnegative finite
decimals that appear as LoRA weights: an integral number prints with no
decimal point (String(1.0) is "1"), otherwise integer part, a dot, and
the exact fraction digits. -/
def jsNumberToString (q : ℚ) : String :=
  if q.den = 1 then toString q.num
  else toString (q.num / (q.den : Int)) ++ "." ++ fracDigits (q.num % (q.den : Int)) (q.den : Int) 20

/-- The adapter tag appended for one reference
(generate-image.ts line 118): the interpolation of
`<lora:${lora.tune_id}:${lora.weight || 1.0}>`. -/
def loraTag (tuneId : Nat) (weight : ℚ) : String :=
  "<lora:" ++ toString tuneId ++ ":" ++ jsNumberToString (if weight = 0 then 1 else weight) ++ ">"

/-- Whether the character list sub occurs at the start of hay. -/
def charsStartWith : List Char → List Char → Bool
  | [], _ => true
  | _ :: _, [] => false
  | a :: as, b :: bs => a == b && charsStartWith as bs

/-- Whether the character list sub occurs anywhere in hay. -/
def charsContain (sub : List Char) : List Char → Bool
  | [] => charsStartWith sub []
  | b :: t => charsStartWith sub (b :: t) || charsContain sub t

/-- Model of `hay.includes(sub)` of JavaScript strings. -/
def jsIncludes (hay sub : String) : Bool :=
  charsContain sub.data hay.data

/-- The user-facing error thrown when a reference fails validation
(generate-image.ts lines 131-138), naming the failing tune id. -/
def mkLoraErrorMessage (tuneId : Nat) (inner : String) : String :=
  "Invalid LoRA tune ID " ++ toString tuneId ++ ": " ++ inner ++
    "\n\nCommon LoRA issues:\n" ++
    "- The LoRA ID may not exist or you don\x27t have access to it\n" ++
    "- The LoRA may still be training and not ready for use\n" ++
    "- The tune might not be a LoRA type (only LoRAs can be used here)\n" ++
    "- Some LoRAs require specific tokens in your prompt"

/-- A failed composition: the message of the thrown Error and the list of
tune ids for which a transport fetch was issued, in order. -/
structure ComposeFailure where
  message : String
  calls : List Nat
deriving DecidableEq, Repr

/-- The LoRA validation / prefix-building loop of handleGenerateImage
(generate-image.ts lines 110-140). env maps a tune id to the outcome of
its retrieveTune fetch; one fetch is recorded per loop iteration. On
success the accumulated tag prefix, the evolved prompt text and the fetch
log are returned; the first validation failure aborts with the wrapping
Error message. -/
def composeLoras (env : Nat → Except JsError (Option TuneInfo)) :
    List LoraRef → String → String → List Nat →
    Except ComposeFailure (String × String × List Nat)
  | [], acc, promptText, calls => .ok (acc, promptText, calls)
  | l :: rest, acc, promptText, calls =>
    let calls2 := calls ++ [l.tune_id]
    match validateLoraTune l.tune_id (env l.tune_id) with
    | .error e =>
      .error { message := mkLoraErrorMessage l.tune_id (jsErrorMessage e), calls := calls2 }
    | .ok tuneInfo =>
      let acc2 := acc ++ loraTag l.tune_id l.weight
      let promptText2 :=
        match tuneInfo.token with
        | some tok =>
          if tok != "" && !jsIncludes promptText tok then tok ++ " " ++ promptText
          else promptText
        | none => promptText
      composeLoras env rest acc2 promptText2 calls2

/-- The composed prompt text finally submitted (generate-image.ts
lines 107-150): the loop starting from an empty prefix and the base
prompt, then `prefix + " " + promptText` when the prefix is nonempty.
Also returns the ordered fetch log. -/
def composedPromptText (env : Nat → Except JsError (Option TuneInfo))
    (loras : List LoraRef) (basePrompt : String) :
    Except ComposeFailure (String × List Nat) :=
  match composeLoras env loras "" basePrompt [] with
  | .ok (acc, promptText, calls) =>
    .ok ((if acc != "" then acc ++ " " ++ promptText else promptText), calls)
  | .error e => .error e

/-- A Job (prompt/generation record) projection as returned by the
service: id, images list and error are all possibly absent
(src/api/types.ts GenerateImageResponse; the client tests each field for
truthiness before use). -/
structure Job where
  id : Option Nat := none
  images : Option (List String) := none
  error : Option String := none
deriving DecidableEq, Repr

/-- The check `result.images && result.images.length > 0` (client.ts line 175). -/
def imagesReady (j : Job) : Bool :=
  match j.images with
  | some (_ :: _) => true
  | _ => false

/-- The truthiness of `result.error` (client.ts line 182): present and nonempty. -/
def jobErrorTruthy (j : Job) : Bool :=
  match j.error with
  | some s => s != ""
  | none => false

/-- The warm-up threshold of the polling loop: the error field is only
consulted when `attempts > 10` (client.ts line 182). -/
def WARMUP_THRESHOLD : Nat := 10

/-- Message of the POLLING_TIMEOUT error (client.ts line 201). -/
def pollTimeoutMessage (maxAttempts : Nat) : String :=
  "Prompt generation timed out after " ++ toString maxAttempts ++ " attempts"

/-- The details payload `{ tuneId, promptId, maxAttempts }` of the
POLLING_TIMEOUT error (client.ts line 203). -/
def pollTimeoutDetails (tuneId promptId maxAttempts : Nat) : JsValue :=
  .obj [("tuneId", .num tuneId), ("promptId", .num promptId), ("maxAttempts", .num maxAttempts)]

/-- The POLLING_TIMEOUT AstriaError thrown on budget exhaustion
(client.ts lines 200-204). -/
def pollTimeoutError (tuneId promptId maxAttempts : Nat) : AstriaError :=
  { message := pollTimeoutMessage maxAttempts
    code := .POLLING_TIMEOUT
    details := some (pollTimeoutDetails tuneId promptId maxAttempts) }

/-- How one run of the polling loop ended: returned via the images branch,
returned via the error branch, or threw the POLLING_TIMEOUT error. -/
inductive PollOutcome where
  | completed (j : Job)
  | failed (j : Job)
  | timedOut (e : AstriaError)

/-- A finished polling run: its outcome and the number of GET requests it
issued. -/
structure PollRun where
  outcome : PollOutcome
  gets : Nat

/-- The body of pollForPromptCompletion (client.ts lines 164-204).
trace gives the Job returned by the GET of iteration `attempts`
(0-based); fuel is the number of remaining iterations, so that the while
condition `attempts < maxAttempts` is embedded by starting with
fuel = maxAttempts and keeping fuel + attempts = maxAttempts. Each entered
iteration issues exactly one GET. -/
def pollAux (tuneId promptId : Nat) (trace : Nat → Job) (maxAttempts : Nat) :
    Nat → Nat → PollRun
  | _, 0 => { outcome := .timedOut (pollTimeoutError tuneId promptId maxAttempts), gets := 0 }
  | attempts, fuel + 1 =>
    let result := trace attempts
    if imagesReady result then { outcome := .completed result, gets := 1 }
    else if decide (WARMUP_THRESHOLD < attempts) && jobErrorTruthy result then
      { outcome := .failed result, gets := 1 }
    else
      let r := pollAux tuneId promptId trace maxAttempts (attempts + 1) fuel
      { outcome := r.outcome, gets := r.gets + 1 }

/-- pollForPromptCompletion (client.ts lines 158-205) on a given GET
trace: the loop starting at attempts = 0 with the full budget. -/
def pollForPromptCompletion (tuneId promptId : Nat) (trace : Nat → Job)
    (maxAttempts : Nat) : PollRun :=
  pollAux tuneId promptId trace maxAttempts 0 maxAttempts

/-- How a generateImage run ended: the initial POST response was returned
without polling, or the run delegated to the polling loop. -/
inductive GenOutcome where
  | immediate (j : Job)
  | polled (o : PollOutcome)

/-- A finished generateImage run: its outcome and the number of GET poll
requests issued. -/
structure GenRun where
  outcome : GenOutcome
  gets : Nat

/-- The post-submission logic of generateImage (client.ts lines 140-146):
polling starts iff the initial response has a truthy id and
`!result.images || result.images.length === 0`; the initial error field is
never consulted. -/
def generateImageRun (modelId : Nat) (initial : Job) (trace : Nat → Job)
    (maxAttempts : Nat) : GenRun :=
  match initial.id with
  | some promptId =>
    if promptId ≠ 0 ∧ (initial.images = none ∨ initial.images = some []) then
      let r := pollForPromptCompletion modelId promptId trace maxAttempts
      { outcome := .polled r.outcome, gets := r.gets }
    else { outcome := .immediate initial, gets := 0 }
  | none => { outcome := .immediate initial, gets := 0 }

/-- The exact rational one half, the weight 0.5 of the composition
example. -/
def ratHalf : ℚ := ⟨1, 2, by decide, by decide⟩

/-- A tune record that validates successfully and carries the trigger
token ohwx. -/
def tuneOhwx : TuneInfo :=
  { id := 1, title := "T1", name := "cat", token := some "ohwx"
    trained_at := some "2024-01-01", model_type := some "lora" }

/-- A tune record that validates successfully and carries no trigger
token. -/
def tuneNoToken : TuneInfo :=
  { id := 2, title := "T2", name := "style", token := none
    trained_at := some "2024-01-01", model_type := some "lora" }

/-- Fetch environment of the composition example: tune 1 resolves to
tuneOhwx, every other id to tuneNoToken. -/
def envExample : Nat → Except JsError (Option TuneInfo) :=
  fun id => if id = 1 then .ok (some tuneOhwx) else .ok (some tuneNoToken)

/-- A still-processing poll projection: empty images, null error. -/
def procJob : Job := { id := some 42, images := some [], error := none }

/-- A poll projection with non-empty images AND a non-null error. -/
def mixedJob : Job := { id := some 42, images := some ["https://x/1.png"], error := some "x" }

/-- A poll projection whose error is the empty string (non-null but
falsy in JavaScript). -/
def emptyErrJob : Job := { id := some 42, images := some [], error := some "" }

/-- An initial POST response with empty images and a non-null error. -/
def errJob : Job := { id := some 42, images := some [], error := some "boom" }

/-- A GET trace that is still processing up to iteration 10 and returns
mixedJob from iteration 11 (the first post-warm-up iteration) on. -/
def traceMixed : Nat → Job := fun i => if i < 11 then procJob else mixedJob

/-- A GET trace that always returns the empty-string-error projection. -/
def traceEmptyErr : Nat → Job := fun _ => emptyErrJob

/-- If every GET from iteration a to the end of the budget is
non-terminating (images not ready, error not truthy), the loop runs its
remaining fuel to exhaustion, issues one GET per remaining iteration and
throws the POLLING_TIMEOUT error. -/
theorem pollAux_timedOut (tuneId promptId N : Nat) (trace : Nat → Job) :
    ∀ fuel a, a + fuel = N →
      (∀ i, a ≤ i → i < N →
        imagesReady (trace i) = false ∧ jobErrorTruthy (trace i) = false) →
      pollAux tuneId promptId trace N a fuel =
        { outcome := .timedOut (pollTimeoutError tuneId promptId N), gets := fuel } := by
  intro fuel
  induction fuel with
  | zero => intro a _ _; rfl
  | succ fuel ih =>
    intro a hsum hproc
    have h := hproc a (Nat.le_refl a) (by omega)
    simp only [pollAux, h.1, h.2, Bool.and_false, Bool.false_eq_true, if_false]
    rw [ih (a + 1) (by omega) (fun i hi hiN => hproc i (by omega) hiN)]

/-- If every GET before iteration k is non-terminating, and iteration k
lies past the warm-up threshold and within the budget and returns a
projection with images not ready and a truthy error, the loop returns
that projection through the error branch after k + 1 - a GETs when
started at iteration a ≤ k. -/
theorem pollAux_firstErrorFails (tuneId promptId N k : Nat) (trace : Nat → Job)
    (hk10 : WARMUP_THRESHOLD < k) (hkN : k < N)
    (hbefore : ∀ j, j < k → imagesReady (trace j) = false ∧
      (WARMUP_THRESHOLD < j → jobErrorTruthy (trace j) = false))
    (himg : imagesReady (trace k) = false) (herr : jobErrorTruthy (trace k) = true) :
    ∀ fuel a, a + fuel = N → a ≤ k →
      pollAux tuneId promptId trace N a fuel =
        { outcome := .failed (trace k), gets := k + 1 - a } := by
  intro fuel
  induction fuel with
  | zero => intro a hsum hak; exfalso; omega
  | succ fuel ih =>
    intro a hsum hak
    by_cases hek : a = k
    · subst hek
      have hd : decide (WARMUP_THRESHOLD < a) = true := decide_eq_true hk10
      simp only [pollAux, himg, herr, hd, Bool.and_true, Bool.false_eq_true, if_false, if_true]
      have : a + 1 - a = 1 := by omega
      rw [this]
    · have hlt : a < k := by omega
      have hb := hbefore a hlt
      have hcond : (decide (WARMUP_THRESHOLD < a) && jobErrorTruthy (trace a)) = false := by
        by_cases h10 : WARMUP_THRESHOLD < a
        · simp [hb.2 h10]
        · simp [h10]
      simp only [pollAux, hb.1, hcond, Bool.false_eq_true, if_false]
      rw [ih (a + 1) (by omega) (by omega)]
      simp only []
      congr 1
      omega

/-- A GET trace that is still processing up to iteration 10 and from
iteration 11 on returns empty images with the non-null error boom. -/
def traceFail : Nat → Job := fun i => if i < 11 then procJob else errJob

/-- Claim C3: for every job whose polls all return an empty images list
and a null error, with attempt budget N the polling loop issues exactly N
GET requests and then raises a classified error of kind POLLING_TIMEOUT
whose details carry the prompt id and N; no further GET is issued and no
other outcome is possible on that input. -/
theorem claimC3_pollingTimeout (tuneId promptId N : Nat) (trace : Nat → Job)
    (hproc : ∀ i, i < N → (trace i).images = some [] ∧ (trace i).error = none) :
    pollForPromptCompletion tuneId promptId trace N =
      { outcome := .timedOut (pollTimeoutError tuneId promptId N), gets := N } ∧
    (pollTimeoutError tuneId promptId N).code = .POLLING_TIMEOUT ∧
    getProp (pollTimeoutDetails tuneId promptId N) "promptId" = some (.num promptId) ∧
    getProp (pollTimeoutDetails tuneId promptId N) "maxAttempts" = some (.num N) := by
  refine ⟨?_, rfl, rfl, rfl⟩
  exact pollAux_timedOut tuneId promptId N trace N 0 (by omega)
    (fun i _ hiN =>
      ⟨by simp [imagesReady, (hproc i hiN).1], by simp [jobErrorTruthy, (hproc i hiN).2]⟩)

/-- Witness for C3 at tune 7, prompt 42, budget 5 and an
always-processing trace. -/
theorem claimC3_pollingTimeout_witness :
    pollForPromptCompletion 7 42 (fun _ => procJob) 5 =
      { outcome := .timedOut (pollTimeoutError 7 42 5), gets := 5 } ∧
    (pollTimeoutError 7 42 5).code = .POLLING_TIMEOUT ∧
    getProp (pollTimeoutDetails 7 42 5) "promptId" = some (.num 42) ∧
    getProp (pollTimeoutDetails 7 42 5) "maxAttempts" = some (.num 5) :=
  claimC3_pollingTimeout 7 42 5 (fun _ => procJob) (fun _ _ => ⟨rfl, rfl⟩)

/-- Claim C4 counterexample: at iteration 11 (the first iteration past
the warm-up threshold) the poll returns a projection with a non-null
error but also non-empty images; the loop terminates through the images
branch as COMPLETED, not as FAILED. And a trace whose error is always the
non-null empty string never terminates as FAILED at all: the run times
out after the whole budget, because the code tests the truthiness of
`result.error`, not null-ness. -/
theorem claimC4_counterexample :
    (pollForPromptCompletion 1 42 traceMixed 20).outcome = .completed mixedJob ∧
    (pollForPromptCompletion 1 42 traceMixed 20).outcome ≠ .failed (traceMixed 11) ∧
    pollForPromptCompletion 1 42 traceEmptyErr 20 =
      { outcome := .timedOut (pollTimeoutError 1 42 20), gets := 20 } := by
  refine ⟨rfl, ?_, rfl⟩
  intro h
  rw [show (pollForPromptCompletion 1 42 traceMixed 20).outcome = .completed mixedJob
    from rfl] at h
  exact PollOutcome.noConfusion h

/-- Claim C4, amended: during polling, an iteration at or before the
warm-up threshold whose poll result has images not ready does not
terminate the loop, whatever the error field holds; and for iterations
past the threshold, the first poll result whose images list is not ready
and whose error is truthy (non-null and non-empty) terminates the loop
with that job as the FAILED outcome. A poll result with non-empty images
terminates as COMPLETED even when its error is non-null, and an
empty-string error never terminates the loop. -/
theorem claimC4_amended :
    (∀ (tuneId promptId : Nat) (trace : Nat → Job) (maxAttempts a fuel : Nat),
      a ≤ WARMUP_THRESHOLD → imagesReady (trace a) = false →
      pollAux tuneId promptId trace maxAttempts a (fuel + 1) =
        { outcome := (pollAux tuneId promptId trace maxAttempts (a + 1) fuel).outcome
          gets := (pollAux tuneId promptId trace maxAttempts (a + 1) fuel).gets + 1 }) ∧
    (∀ (tuneId promptId N k : Nat) (trace : Nat → Job),
      WARMUP_THRESHOLD < k → k < N →
      (∀ j, j < k → imagesReady (trace j) = false ∧
        (WARMUP_THRESHOLD < j → jobErrorTruthy (trace j) = false)) →
      imagesReady (trace k) = false → jobErrorTruthy (trace k) = true →
      pollForPromptCompletion tuneId promptId trace N =
        { outcome := .failed (trace k), gets := k + 1 }) := by
  constructor
  · intro tuneId promptId trace maxAttempts a fuel ha himg
    have hd : decide (WARMUP_THRESHOLD < a) = false := by
      simp only [decide_eq_false_iff_not]
      omega
    simp only [pollAux, himg, hd, Bool.false_and, Bool.false_eq_true, if_false]
  · intro tuneId promptId N k trace hk10 hkN hbefore himg herr
    have h := pollAux_firstErrorFails tuneId promptId N k trace hk10 hkN hbefore himg herr
      N 0 (by omega) (by omega)
    simpa using h

/-- Witness for the amended C4: the warm-up step at iteration 3 of
traceMixed, and the full failing run of traceFail, which first shows a
truthy error at iteration 11 and returns FAILED after 12 GETs. -/
theorem claimC4_amended_witness :
    pollAux 1 42 traceMixed 20 3 (0 + 1) =
      { outcome := (pollAux 1 42 traceMixed 20 (3 + 1) 0).outcome
        gets := (pollAux 1 42 traceMixed 20 (3 + 1) 0).gets + 1 } ∧
    pollForPromptCompletion 1 42 traceFail 20 =
      { outcome := .failed (traceFail 11), gets := 11 + 1 } := by
  constructor
  · exact claimC4_amended.1 1 42 traceMixed 20 3 0 (by decide) rfl
  · refine claimC4_amended.2 1 42 20 11 traceFail (by decide) (by decide) ?_ rfl rfl
    intro j hj
    have hjf : traceFail j = procJob := by simp [traceFail, hj]
    refine ⟨by rw [hjf]; rfl, fun h10 => ?_⟩
    exfalso
    simp only [WARMUP_THRESHOLD] at h10
    omega

/-- Claim C1 counterexample: an initial POST response with a truthy id,
an empty images list and the non-null error boom does NOT return
immediately as FAILED with zero GET polls — the code never consults the
initial error field and enters the polling loop, here issuing 12 GETs
before the warm-up threshold lets the error terminate the run. -/
theorem claimC1_counterexample :
    generateImageRun 1504944 errJob (fun _ => errJob) 30 =
      { outcome := .polled (.failed errJob), gets := 12 } ∧ (12 : Nat) ≠ 0 :=
  ⟨rfl, by decide⟩

/-- Claim C1, amended: for every submission whose initial POST response
has a truthy id, an empty images list and a non-null error, the run does
not return immediately — it delegates to the polling loop (issuing that
loop's GET requests); the initial error field is not consulted when
deciding whether to poll. -/
theorem claimC1_amended (modelId : Nat) (initial : Job) (trace : Nat → Job)
    (maxAttempts promptId : Nat) (hid : initial.id = some promptId) (h0 : promptId ≠ 0)
    (himg : initial.images = some []) (herr : initial.error ≠ none) :
    generateImageRun modelId initial trace maxAttempts =
      { outcome := .polled (pollForPromptCompletion modelId promptId trace maxAttempts).outcome
        gets := (pollForPromptCompletion modelId promptId trace maxAttempts).gets } := by
  simp [generateImageRun, hid, himg, h0]

/-- Witness for the amended C1 at the concrete counterexample input. -/
theorem claimC1_amended_witness :
    generateImageRun 1504944 errJob (fun _ => errJob) 30 =
      { outcome := .polled (pollForPromptCompletion 1504944 42 (fun _ => errJob) 30).outcome
        gets := (pollForPromptCompletion 1504944 42 (fun _ => errJob) 30).gets } :=
  claimC1_amended 1504944 errJob (fun _ => errJob) 30 42 rfl (by decide) rfl (by decide)

/-- Claim C2 counterexample: for base prompt a cat and references
(1, 0.5), (2, 1.0) against successfully-validating tunes where tune 1
carries token ohwx and tune 2 no token, the composed prompt is
"<lora:1:0.5><lora:2:1> ohwx a cat" — NOT "<lora:1:0.5><lora:2:1.0> ...",
because the JavaScript template interpolation of the number 1.0 prints as
"1". -/
theorem claimC2_counterexample :
    composedPromptText envExample [⟨1, ratHalf⟩, ⟨2, 1⟩] "a cat" =
      .ok ("<lora:1:0.5><lora:2:1> ohwx a cat", [1, 2]) ∧
    "<lora:1:0.5><lora:2:1> ohwx a cat" ≠ "<lora:1:0.5><lora:2:1.0> ohwx a cat" :=
  ⟨rfl, by decide⟩

/-- Claim C2, amended: on the same input the composed prompt equals
exactly "<lora:1:0.5><lora:2:1> ohwx a cat" — token prepended once,
adapter tags in caller-supplied order, tag prefix followed by a single
space — where the weight 1.0 renders as "1" in its adapter tag, as
JavaScript number-to-string conversion drops the trailing ".0". -/
theorem claimC2_amended :
    composedPromptText envExample [⟨1, ratHalf⟩, ⟨2, 1⟩] "a cat" =
      .ok ("<lora:1:0.5><lora:2:1> ohwx a cat", [1, 2]) ∧
    loraTag 2 1 = "<lora:2:1>" ∧ jsNumberToString ratHalf = "0.5" :=
  ⟨rfl, rfl, rfl⟩

/-- A tune record that exists but has not finished training. -/
def untrainedTune : TuneInfo :=
  { id := 6, title := "U", name := "cat", trained_at := none, model_type := some "lora" }

/-- A trained tune record of a non-LoRA model type. -/
def faceidTune : TuneInfo :=
  { id := 7, title := "F", name := "cat", trained_at := some "2024-01-01"
    model_type := some "faceid" }

/-- An arbitrary already-classified error, for propagation tests. -/
def sampleAstriaError : AstriaError := { message := "upstream", code := .AUTH_ERROR }

/-- Claim C5: the Tune Validator fails with RESOURCE_NOT_FOUND when the
fetch yields no record; with VALIDATION_ERROR whenever trained_at is
null; with VALIDATION_ERROR whenever model_type is not lora, regardless
of training status; and every thrown error that is already a classified
AstriaError (the internal throws included) propagates out identical,
never re-wrapped by the outer catch. -/
theorem claimC5_validateLoraTune :
    (∀ tuneId : Nat, validateLoraTune tuneId (.ok none) =
      .error (.astria { message := notFoundMessage tuneId, code := .RESOURCE_NOT_FOUND })) ∧
    (∀ (tuneId : Nat) (t : TuneInfo), t.trained_at = none →
      validateLoraTune tuneId (.ok (some t)) =
        .error (.astria { message := notTrainedMessage tuneId, code := .VALIDATION_ERROR })) ∧
    (∀ (tuneId : Nat) (t : TuneInfo), t.model_type ≠ some "lora" →
      ∃ m, validateLoraTune tuneId (.ok (some t)) =
        .error (.astria { message := m, code := .VALIDATION_ERROR })) ∧
    (∀ (tuneId : Nat) (e : AstriaError),
      validateLoraTune tuneId (.error (.astria e)) = .error (.astria e)) := by
  refine ⟨fun tuneId => rfl, ?_, ?_, fun tuneId e => rfl⟩
  · intro tuneId t ht
    simp [validateLoraTune, optStrTruthy, ht]
  · intro tuneId t hmt
    cases htr : optStrTruthy t.trained_at with
    | false => exact ⟨notTrainedMessage tuneId, by simp [validateLoraTune, htr]⟩
    | true => exact ⟨notLoraMessage tuneId t.model_type, by simp [validateLoraTune, htr, hmt]⟩

/-- Witness for C5: a missing record, an untrained tune, a faceid tune
and an already-classified error, at concrete ids. -/
theorem claimC5_validateLoraTune_witness :
    validateLoraTune 5 (.ok none) =
      .error (.astria { message := notFoundMessage 5, code := .RESOURCE_NOT_FOUND }) ∧
    validateLoraTune 6 (.ok (some untrainedTune)) =
      .error (.astria { message := notTrainedMessage 6, code := .VALIDATION_ERROR }) ∧
    (∃ m, validateLoraTune 7 (.ok (some faceidTune)) =
      .error (.astria { message := m, code := .VALIDATION_ERROR })) ∧
    validateLoraTune 8 (.error (.astria sampleAstriaError)) =
      .error (.astria sampleAstriaError) :=
  ⟨claimC5_validateLoraTune.1 5,
   claimC5_validateLoraTune.2.1 6 untrainedTune rfl,
   claimC5_validateLoraTune.2.2.1 7 faceidTune (by decide),
   claimC5_validateLoraTune.2.2.2 8 sampleAstriaError⟩

/-- If every reference before index i validates successfully and the
reference at index i fails, the composition loop returns the wrapping
error naming the id of reference i, and the ordered fetch log is exactly
the already-recorded calls followed by the ids of the first i + 1
references — no later reference is ever fetched. -/
theorem composeLoras_firstFailure (env : Nat → Except JsError (Option TuneInfo)) :
    ∀ (loras : List LoraRef) (acc promptText : String) (calls : List Nat)
      (i : Nat) (hi : i < loras.length) (e : JsError),
      (∀ j (hj : j < i), ∃ t,
        validateLoraTune (loras.get ⟨j, Nat.lt_trans hj hi⟩).tune_id
          (env (loras.get ⟨j, Nat.lt_trans hj hi⟩).tune_id) = .ok t) →
      validateLoraTune (loras.get ⟨i, hi⟩).tune_id (env (loras.get ⟨i, hi⟩).tune_id) =
        .error e →
      composeLoras env loras acc promptText calls =
        .error { message := mkLoraErrorMessage (loras.get ⟨i, hi⟩).tune_id (jsErrorMessage e)
                 calls := calls ++ (loras.take (i + 1)).map (·.tune_id) } := by
  intro loras
  induction loras with
  | nil => intro _ _ _ i hi; exact absurd hi (Nat.not_lt_zero i)
  | cons l rest ih =>
    intro acc promptText calls i hi e hok hfail
    cases i with
    | zero =>
      simp only [List.get] at hfail
      simp [composeLoras, hfail]
    | succ i' =>
      obtain ⟨t, ht⟩ := hok 0 (Nat.succ_pos i')
      simp only [List.get] at ht hfail
      simp only [composeLoras, ht]
      rw [ih _ _ _ i' (Nat.lt_of_succ_lt_succ hi) e
        (fun j hj => hok (j + 1) (Nat.succ_lt_succ hj)) hfail]
      simp [List.append_assoc]

/-- Claim C6: references are validated strictly in caller-supplied order;
on the first reference whose validation fails, composition aborts with an
error message naming that reference's tune id, and the transport fetch
log contains exactly the ids of the references up to and including the
failing one — zero fetches for all later references. -/
theorem claimC6_failFast (env : Nat → Except JsError (Option TuneInfo))
    (loras : List LoraRef) (basePrompt : String)
    (i : Nat) (hi : i < loras.length) (e : JsError)
    (hok : ∀ j (hj : j < i), ∃ t,
      validateLoraTune (loras.get ⟨j, Nat.lt_trans hj hi⟩).tune_id
        (env (loras.get ⟨j, Nat.lt_trans hj hi⟩).tune_id) = .ok t)
    (hfail : validateLoraTune (loras.get ⟨i, hi⟩).tune_id
      (env (loras.get ⟨i, hi⟩).tune_id) = .error e) :
    composedPromptText env loras basePrompt =
      .error { message := mkLoraErrorMessage (loras.get ⟨i, hi⟩).tune_id (jsErrorMessage e)
               calls := (loras.take (i + 1)).map (·.tune_id) } := by
  unfold composedPromptText
  rw [composeLoras_firstFailure env loras "" basePrompt [] i hi e hok hfail]
  simp

/-- Fetch environment in which tune 1 fails validation (untrained) and
every other id validates successfully. -/
def envFail : Nat → Except JsError (Option TuneInfo) :=
  fun id => if id = 1 then .ok (some untrainedTune) else .ok (some tuneNoToken)

/-- Witness for C6: with references (1, 1.0) then (2, 1.0) and tune 1
failing validation, composition aborts naming id 1 and only tune 1 was
fetched. -/
theorem claimC6_failFast_witness :
    composedPromptText envFail [⟨1, 1⟩, ⟨2, 1⟩] "a dog" =
      .error { message := mkLoraErrorMessage 1 (notTrainedMessage 1), calls := [1] } :=
  claimC6_failFast envFail [⟨1, 1⟩, ⟨2, 1⟩] "a dog" 0 (by decide)
    (.astria { message := notTrainedMessage 1, code := .VALIDATION_ERROR })
    (fun j hj => absurd hj (Nat.not_lt_zero j)) rfl

/-- Claim C7: the classifier assigns kind by HTTP status — 401 and 403 to
AUTH, 404 to NOT_FOUND, 422 to VALIDATION, 429 to RATE_LIMIT, every
other (truthy) status to API_ERROR; with no status, an ECONNABORTED
timeout signal yields TIMEOUT and an ERR_NETWORK connection failure
yields NETWORK; and a non-transport, not-already-classified failure
yields SDK_ERROR. -/
theorem claimC7_kindTable :
    (∀ (data : Option JsValue) (codeStr : Option String) (msg : String),
      resultCode (createErrorFromResponse (.axiosErr (some 401) data codeStr msg)) =
        some .AUTH_ERROR) ∧
    (∀ (data : Option JsValue) (codeStr : Option String) (msg : String),
      resultCode (createErrorFromResponse (.axiosErr (some 403) data codeStr msg)) =
        some .AUTH_ERROR) ∧
    (∀ (data : Option JsValue) (codeStr : Option String) (msg : String),
      resultCode (createErrorFromResponse (.axiosErr (some 404) data codeStr msg)) =
        some .RESOURCE_NOT_FOUND) ∧
    (∀ (data : Option JsValue) (codeStr : Option String) (msg : String),
      resultCode (createErrorFromResponse (.axiosErr (some 422) data codeStr msg)) =
        some .VALIDATION_ERROR) ∧
    (∀ (data : Option JsValue) (codeStr : Option String) (msg : String),
      resultCode (createErrorFromResponse (.axiosErr (some 429) data codeStr msg)) =
        some .RATE_LIMIT_ERROR) ∧
    (∀ (s : Nat) (data : Option JsValue) (codeStr : Option String) (msg : String),
      0 < s → s ≠ 401 → s ≠ 403 → s ≠ 404 → s ≠ 422 → s ≠ 429 →
      resultCode (createErrorFromResponse (.axiosErr (some s) data codeStr msg)) =
        some .API_ERROR) ∧
    (∀ (data : Option JsValue) (msg : String),
      resultCode (createErrorFromResponse (.axiosErr none data (some "ECONNABORTED") msg)) =
        some .TIMEOUT_ERROR) ∧
    (∀ (data : Option JsValue) (msg : String),
      resultCode (createErrorFromResponse (.axiosErr none data (some "ERR_NETWORK") msg)) =
        some .NETWORK_ERROR) ∧
    (∀ v : JsValue,
      resultCode (createErrorFromResponse (.otherVal v)) = some .SDK_ERROR) := by
  refine ⟨fun _ _ _ => rfl, fun _ _ _ => rfl, fun _ _ _ => rfl, fun _ _ _ => rfl,
    fun _ _ _ => rfl, ?_, fun _ _ => rfl, fun _ _ => rfl, fun _ => rfl⟩
  intro s data codeStr msg hs h1 h2 h3 h4 h5
  have hne : s ≠ 0 := by omega
  simp [createErrorFromResponse, resultCode, mkAxiosError, axiosCode, statusTruthy,
    statusKind, hne, h1, h2, h3, h4, h5]

/-- Witness for C7 at concrete statuses, signals and a local failure. -/
theorem claimC7_kindTable_witness :
    resultCode (createErrorFromResponse (.axiosErr (some 401) none none "x")) =
      some .AUTH_ERROR ∧
    resultCode (createErrorFromResponse (.axiosErr (some 403) none none "x")) =
      some .AUTH_ERROR ∧
    resultCode (createErrorFromResponse (.axiosErr (some 404) none none "x")) =
      some .RESOURCE_NOT_FOUND ∧
    resultCode (createErrorFromResponse (.axiosErr (some 422) none none "x")) =
      some .VALIDATION_ERROR ∧
    resultCode (createErrorFromResponse (.axiosErr (some 429) none none "x")) =
      some .RATE_LIMIT_ERROR ∧
    resultCode (createErrorFromResponse (.axiosErr (some 500) none none "x")) =
      some .API_ERROR ∧
    resultCode (createErrorFromResponse (.axiosErr none none (some "ECONNABORTED") "x")) =
      some .TIMEOUT_ERROR ∧
    resultCode (createErrorFromResponse (.axiosErr none none (some "ERR_NETWORK") "x")) =
      some .NETWORK_ERROR ∧
    resultCode (createErrorFromResponse (.otherVal (.str "local bug"))) =
      some .SDK_ERROR :=
  ⟨claimC7_kindTable.1 none none "x",
   claimC7_kindTable.2.1 none none "x",
   claimC7_kindTable.2.2.1 none none "x",
   claimC7_kindTable.2.2.2.1 none none "x",
   claimC7_kindTable.2.2.2.2.1 none none "x",
   claimC7_kindTable.2.2.2.2.2.1 500 none none "x" (by decide) (by decide) (by decide)
     (by decide) (by decide) (by decide),
   claimC7_kindTable.2.2.2.2.2.2.1 none "x",
   claimC7_kindTable.2.2.2.2.2.2.2.1 none "x",
   claimC7_kindTable.2.2.2.2.2.2.2.2 (.str "local bug")⟩

/-- Claim C8 counterexample: the stated precedence omits two branches of
the code. A payload whose single field is errors with an array of strings
is joined WITHOUT the field-name, a field-keyed payload with a plain
string value is extracted as field: value rather than falling back, and a
falsy (empty) string payload is not used verbatim. -/
theorem claimC8_counterexample :
    extractMessage (some 422) (some (.obj [("errors", .arr [.str "a", .str "b"])])) "" =
      "a, b" ∧
    ("a, b" : String) ≠ "errors: a, b" ∧
    extractMessage (some 404) (some (.obj [("a", .str "x")])) "" = "a: x" ∧
    ("a: x" : String) ≠ apiErrorText (some 404) ∧
    extractMessage (some 400) (some (.str "")) "boom" = "boom" ∧
    ("boom" : String) ≠ "" :=
  ⟨rfl, by decide, rfl, by decide, rfl, by decide⟩

/-- Claim C8, amended: the classifier message is the SDK prefix plus the
extracted text, and extraction follows this precedence for a truthy
payload: a non-empty plain string is used verbatim; otherwise a truthy
error field, then a truthy message field, is used (stringified);
otherwise an errors field holding an array is element-joined with a comma
and space, without the field name; otherwise the field-keyed entries
whose values are arrays (joined per field) or plain strings are rendered
as field-colon-value and joined with semicolons; and only when that
yields nothing does the message fall back to the generic
API error (<status>) text. -/
theorem claimC8_amended :
    (∀ (st : Option Nat) (data : Option JsValue) (codeStr : Option String) (msg : String),
      (mkAxiosError st data codeStr msg).message =
        "Astria SDK: " ++ extractMessage st data msg) ∧
    (∀ (st : Option Nat) (s : String) (msg : String), s ≠ "" →
      extractMessage st (some (.str s)) msg = s) ∧
    (∀ (st : Option Nat) (d : JsValue) (msg : String) (v : JsValue),
      jsTruthy d = true → typeofObject d = true → getPropTruthy d "error" = some v →
      extractMessage st (some d) msg = jsToString v) ∧
    (∀ (st : Option Nat) (d : JsValue) (msg : String) (v : JsValue),
      jsTruthy d = true → typeofObject d = true → getPropTruthy d "error" = none →
      getPropTruthy d "message" = some v →
      extractMessage st (some d) msg = jsToString v) ∧
    (∀ (st : Option Nat) (d : JsValue) (msg : String) (es : List JsValue) (ms : List String),
      jsTruthy d = true → typeofObject d = true → getPropTruthy d "error" = none →
      getPropTruthy d "message" = none → errorsArray d = some es →
      errorsMessages es = .ok ms →
      extractMessage st (some d) msg = String.intercalate ", " ms) ∧
    (∀ (st : Option Nat) (d : JsValue) (msg : String),
      jsTruthy d = true → typeofObject d = true → getPropTruthy d "error" = none →
      getPropTruthy d "message" = none → errorsArray d = none →
      extractMessage st (some d) msg =
        (if (entryMessages (jsEntries d)).isEmpty then apiErrorText st
         else String.intercalate "; " (entryMessages (jsEntries d)))) := by
  refine ⟨fun _ _ _ _ => rfl, ?_, ?_, ?_, ?_, ?_⟩
  · intro st s msg hs
    simp [extractMessage, jsTruthy, typeofObject, jsToString, hs]
  · intro st d msg v htr hobj herr
    simp [extractMessage, extractObjectMessage, tryExtractObject, htr, hobj, herr]
  · intro st d msg v htr hobj herr hmsg
    simp [extractMessage, extractObjectMessage, tryExtractObject, htr, hobj, herr, hmsg]
  · intro st d msg es ms htr hobj herr hmsg hearr hms
    simp [extractMessage, extractObjectMessage, tryExtractObject, htr, hobj, herr, hmsg,
      hearr, hms]
  · intro st d msg htr hobj herr hmsg hearr
    simp [extractMessage, extractObjectMessage, tryExtractObject, htr, hobj, herr, hmsg,
      hearr]

/-- Witness for the amended C8: one concrete payload per extraction
branch. -/
theorem claimC8_amended_witness :
    (mkAxiosError (some 422) (some (.str "payload")) none "m").message =
      "Astria SDK: " ++ extractMessage (some 422) (some (.str "payload")) "m" ∧
    extractMessage (some 400) (some (.str "oops")) "" = "oops" ∧
    extractMessage (some 400) (some (.obj [("error", .str "bad")])) "" =
      jsToString (.str "bad") ∧
    extractMessage (some 400) (some (.obj [("message", .str "note")])) "" =
      jsToString (.str "note") ∧
    extractMessage (some 422) (some (.obj [("errors", .arr [.str "a", .str "b"])])) "" =
      String.intercalate ", " ["a", "b"] ∧
    extractMessage (some 422) (some (.obj [("name", .arr [.str "x", .str "y"])])) "" =
      (if (entryMessages (jsEntries (.obj [("name", .arr [.str "x", .str "y"])]))).isEmpty
       then apiErrorText (some 422)
       else String.intercalate "; "
         (entryMessages (jsEntries (.obj [("name", .arr [.str "x", .str "y"])])))) :=
  ⟨claimC8_amended.1 (some 422) (some (.str "payload")) none "m",
   claimC8_amended.2.1 (some 400) "oops" "" (by decide),
   claimC8_amended.2.2.1 (some 400) (.obj [("error", .str "bad")]) "" (.str "bad")
     rfl rfl rfl,
   claimC8_amended.2.2.2.1 (some 400) (.obj [("message", .str "note")]) "" (.str "note")
     rfl rfl rfl rfl,
   claimC8_amended.2.2.2.2.1 (some 422) (.obj [("errors", .arr [.str "a", .str "b"])]) ""
     [.str "a", .str "b"] ["a", "b"] rfl rfl rfl rfl rfl rfl,
   claimC8_amended.2.2.2.2.2 (some 422) (.obj [("name", .arr [.str "x", .str "y"])]) ""
     rfl rfl rfl rfl rfl⟩

/-- Claim C9: re-classifying is idempotent — an input that is already an
AstriaError is returned as that very value, and classifying the result of
any successful classification returns it unchanged. -/
theorem claimC9_idempotent :
    (∀ e : AstriaError, createErrorFromResponse (.astriaErr e) = .ok e) ∧
    (∀ (x : RawInput) (e : AstriaError), createErrorFromResponse x = .ok e →
      createErrorFromResponse (.astriaErr e) = .ok e) :=
  ⟨fun _ => rfl, fun _ _ _ => rfl⟩

/-- Witness for C9: re-classifying the classification of a concrete 404
failure returns it unchanged. -/
theorem claimC9_idempotent_witness :
    createErrorFromResponse (.astriaErr (mkAxiosError (some 404) none none "gone")) =
      .ok (mkAxiosError (some 404) none none "gone") :=
  claimC9_idempotent.2 (.axiosErr (some 404) none none "gone")
    (mkAxiosError (some 404) none none "gone") rfl

/-- Claim C10 counterexample: on the input null (or undefined) the final
branch of createErrorFromResponse evaluates error.message, which throws a
TypeError — the function does not return an AstriaError for every input
whatsoever. -/
theorem claimC10_counterexample :
    createErrorFromResponse .jsNull = .thrown ∧
    ¬ ∃ e, createErrorFromResponse .jsNull = .ok e := by
  refine ⟨rfl, ?_⟩
  rintro ⟨e, h⟩
  rw [show createErrorFromResponse .jsNull = .thrown from rfl] at h
  exact ClassifyResult.noConfusion h

/-- Claim C10, amended: for every input other than null/undefined,
createErrorFromResponse returns an AstriaError and never itself throws;
in particular a malformed errors payload (a null element inside the
errors array) is caught by the try/catch and mapped to the
Error parsing API response message rather than escaping. -/
theorem claimC10_amended :
    (∀ x : RawInput, x ≠ .jsNull → ∃ e, createErrorFromResponse x = .ok e) ∧
    (∀ (st : Option Nat) (codeStr : Option String) (msg : String),
      createErrorFromResponse
          (.axiosErr st (some (.obj [("errors", .arr [.null])])) codeStr msg) =
        .ok { message := "Astria SDK: Error parsing API response"
              code := axiosCode st codeStr
              details := some (.obj [("errors", .arr [.null])])
              httpStatus := st }) := by
  constructor
  · intro x hx
    cases x with
    | axiosErr st data codeStr msg => exact ⟨_, rfl⟩
    | astriaErr e => exact ⟨e, rfl⟩
    | jsNull => exact absurd rfl hx
    | otherVal v => exact ⟨_, rfl⟩
  · intro st codeStr msg
    rfl

/-- Witness for the amended C10: a local string failure is classified,
and a 422 response whose errors array contains null yields the parse
failure message. -/
theorem claimC10_amended_witness :
    (∃ e, createErrorFromResponse (.otherVal (.str "local")) = .ok e) ∧
    createErrorFromResponse
        (.axiosErr (some 422) (some (.obj [("errors", .arr [.null])])) none "x") =
      .ok { message := "Astria SDK: Error parsing API response"
            code := axiosCode (some 422) none
            details := some (.obj [("errors", .arr [.null])])
            httpStatus := some 422 } :=
  ⟨claimC10_amended.1 (.otherVal (.str "local")) (fun h => RawInput.noConfusion h),
   claimC10_amended.2 (some 422) none "x"⟩
